import Mathlib

/-! Verification of the frame-lifecycle synchronization logic of the
bevy_solari_directx repository: the fence protocol of src/gpu.rs, the
swapchain logic of src/swapchain.rs, the plugin setup of src/lib.rs and the
demo frame loop of examples/demo.rs, shallowly embedded over Nat. -/

namespace BevyDirectX

/-- Windows sentinel value INFINITE (0xFFFFFFFF) for WaitForSingleObjectEx:
it requests an unbounded wait. Every other dwMilliseconds value requests a
bounded wait of that many milliseconds. -/
def INFINITE : Nat := 4294967295

/-- Timeout passed to WaitForSingleObjectEx by wait_for_ready_frame
(src/swapchain.rs line 82). -/
def wait_for_ready_frame_timeout : Nat := INFINITE

/-- Timeout passed to WaitForSingleObjectEx by Gpu::wait_for_fence
(src/gpu.rs line 159). -/
def wait_for_fence_timeout : Nat := INFINITE

/-- Timeout passed to WaitForSingleObjectEx by the demo render_frame
(examples/demo.rs line 88). -/
def demo_frame_wait_timeout : Nat := 1000

/-- A dwMilliseconds argument denotes a bounded, finite wait exactly when it
is not the INFINITE sentinel. -/
def boundedTimeout (t : Nat) : Bool := t != INFINITE

/-- State of the fence protocol of the Gpu resource (src/gpu.rs):
fence_counter is the field of the same name, completed models the value
returned by fence.GetCompletedValue(), queue_signaled the value most
recently passed to queue.Signal, and armed the value most recently passed to
fence.SetEventOnCompletion (none before the first arming). -/
structure FenceState where
  fence_counter : Nat
  completed : Nat
  queue_signaled : Nat
  armed : Option Nat
  deriving DecidableEq, Repr

/-- Gpu::new (src/gpu.rs lines 96-97 and 129): the fence is created with
initial value 0, fence_counter starts at 0, and no completion event has been
armed yet. -/
def initFence : FenceState :=
  { fence_counter := 0, completed := 0, queue_signaled := 0, armed := none }

/-- Gpu::signal_fence (src/gpu.rs lines 146-154): increments fence_counter,
asks the queue to signal the fence at the new counter value, and arms the
completion event at that same value. -/
def signal_fence (s : FenceState) : FenceState :=
  { s with
    fence_counter := s.fence_counter + 1,
    queue_signaled := s.fence_counter + 1,
    armed := some (s.fence_counter + 1) }

/-- Gpu::wait_for_fence (src/gpu.rs lines 156-162): when the completed value
is below fence_counter, block on the completion event; wake is the fence
completed value observed when the event wait returns. Returns whether the
call blocked and the completed value observed at return. -/
def wait_for_fence (s : FenceState) (wake : Nat) : Bool × Nat :=
  if s.completed < s.fence_counter then (true, wake) else (false, s.completed)

/-- Armed-event invariant of the Gpu fence: either nothing has ever been
submitted (fence_counter = 0), or the completion event is armed exactly at
fence_counter, as signal_fence leaves it. -/
def ArmedInv (s : FenceState) : Prop :=
  s.fence_counter = 0 ∨ s.armed = some s.fence_counter

/-- One full frame cycle of the library protocol: wait_for_ready_frame and
the fence wait only observe completion and leave fence_counter unchanged,
recording has no fence effect, and submit_and_present ends by calling
Gpu::signal_fence. -/
def frame_cycle (wake : Nat) (s : FenceState) : FenceState :=
  signal_fence { s with completed := (wait_for_fence s wake).2 }

/-- Runs a list of frame cycles, one wake observation per cycle. -/
def run_cycles : List Nat → FenceState → FenceState
  | [], s => s
  | w :: ws, s => run_cycles ws (frame_cycle w s)

/-- Fence bookkeeping of DemoResources in examples/demo.rs: fence_counter is
the resource field of the same name, queue_signaled the value last passed to
queue.Signal, armed the value last passed to SetEventOnCompletion. -/
structure DemoFence where
  fence_counter : Nat
  queue_signaled : Nat
  armed : Option Nat
  deriving DecidableEq, Repr

/-- Initial DemoResources fence state (examples/demo.rs lines 65-75): fence
created at 0, fence_counter 0, nothing armed. -/
def initDemoFence : DemoFence :=
  { fence_counter := 0, queue_signaled := 0, armed := none }

/-- Fence steps at the end of the demo render_frame (examples/demo.rs lines
132-139): queue.Signal at the current counter value, then increment the
counter, then arm the completion event at the incremented counter. -/
def demo_signal_step (d : DemoFence) : DemoFence :=
  { queue_signaled := d.fence_counter,
    fence_counter := d.fence_counter + 1,
    armed := some (d.fence_counter + 1) }

/-- Fields of DXGI_SWAP_CHAIN_DESC1 as populated by update_render_target
(src/swapchain.rs lines 118-132); descriptor equality compares every field,
as the derived PartialEq of the source structure does. -/
structure SwapchainDesc where
  width : Nat
  height : Nat
  format : Nat
  sampleCount : Nat
  bufferUsage : Nat
  bufferCount : Nat
  swapEffect : Nat
  alphaMode : Nat
  flags : Nat
  deriving DecidableEq, Repr

/-- SWAPCHAIN_BUFFER_COUNT (src/swapchain.rs line 26). -/
def SWAPCHAIN_BUFFER_COUNT : Nat := 2

/-- WindowRenderTarget (src/swapchain.rs lines 30-37): the stored size, the
descriptor the swapchain currently reports through GetDesc1, and the two
optional arrays of swapchain textures and render-target-view handles, both
of length SWAPCHAIN_BUFFER_COUNT = 2 and abstracted as pairs of Nat ids. -/
structure WindowRenderTarget where
  sizeX : Nat
  sizeY : Nat
  desc : SwapchainDesc
  textures : Option (Nat × Nat)
  rtvs : Option (Nat × Nat)
  deriving DecidableEq, Repr

/-- create_rtvs (src/swapchain.rs lines 233-259): fetches the two swapchain
buffers and writes one render-target view per buffer at consecutive heap
offsets. Buffer identities are abstracted by bufferId, the view handles by
heapStart plus multiples of heapIncrement. -/
def create_rtvs (bufferId : Nat → Nat) (heapStart heapIncrement : Nat) :
    (Nat × Nat) × (Nat × Nat) :=
  ((bufferId 0, bufferId 1), (heapStart, heapStart + heapIncrement))

/-- WindowRenderTarget::rtv (src/swapchain.rs lines 40-43): indexes the
texture and rtv arrays by GetCurrentBackBufferIndex. The source unwraps both
Option fields; the result is none exactly when such an unwrap would panic. -/
def WindowRenderTarget.rtv (rt : WindowRenderTarget) (backBufferIndex : Fin 2) :
    Option (Nat × Nat) :=
  match rt.textures, rt.rtvs with
  | some t, some r =>
    some (if backBufferIndex.val = 0 then (t.1, r.1) else (t.2, r.2))
  | _, _ => none

/-- Calls issued to the presentation engine or device by the resize path of
src/swapchain.rs. -/
inductive EngineCall
  | resizeBuffers (desc : SwapchainDesc)
  | createRtvs
  deriving DecidableEq, Repr

/-- resize_swapchain_if_needed (src/swapchain.rs lines 192-231): reads the
current descriptor back via GetDesc1 and returns at once when the requested
descriptor equals it; otherwise drops the texture and rtv arrays, resizes
the swapchain buffers, and recreates both arrays before returning. Returns
the updated target together with the engine calls issued. -/
def resize_swapchain_if_needed (rt : WindowRenderTarget) (desc : SwapchainDesc)
    (bufferId : Nat → Nat) (heapStart heapIncrement : Nat) :
    WindowRenderTarget × List EngineCall :=
  if desc = rt.desc then (rt, [])
  else
    let rt1 : WindowRenderTarget := { rt with textures := none, rtvs := none }
    let rt2 : WindowRenderTarget := { rt1 with desc := desc }
    let tr := create_rtvs bufferId heapStart heapIncrement
    ({ rt2 with textures := some tr.1, rtvs := some tr.2 },
      [EngineCall.resizeBuffers desc, EngineCall.createRtvs])

/-- create_new_swapchain (src/swapchain.rs lines 144-190), success path:
creates the swapchain for the requested descriptor, waits once on the
frame-latency object, creates the rtv heap and populates both arrays. -/
def create_new_swapchain (desc : SwapchainDesc) (bufferId : Nat → Nat)
    (heapStart heapIncrement : Nat) : WindowRenderTarget :=
  let tr := create_rtvs bufferId heapStart heapIncrement
  { sizeX := desc.width, sizeY := desc.height, desc := desc,
    textures := some tr.1, rtvs := some tr.2 }

/-- wait_for_ready_frame (src/swapchain.rs lines 77-86): when the primary
window has no WindowRenderTarget, the Query yields no row and the body is
skipped entirely; otherwise the system waits on the frame-latency object and
then calls Gpu::wait_for_fence. fenceWake is the completed value observed
when the fence event wait returns. Returns the gpu fence state at return and
whether the call blocked on the latency waitable; the function is total, so
no code path faults. -/
def wait_for_ready_frame (target : Option WindowRenderTarget) (gpu : FenceState)
    (fenceWake : Nat) : FenceState × Bool :=
  match target with
  | none => (gpu, false)
  | some _ =>
    ({ gpu with completed := (wait_for_fence gpu fenceWake).2 }, true)

/-- Logical layout states of a back buffer at the graphics API boundary. -/
inductive ResState
  | presentable
  | renderTarget
  deriving DecidableEq, Repr

/-- Commands recorded into the command list by the demo render_frame
(examples/demo.rs lines 96-125), in source order; a transition barrier
carries its StateBefore and StateAfter layouts. -/
inductive GpuCmd
  | setRootSignature
  | transitionBarrier (before after : ResState)
  | omSetRenderTargets
  | clearRtv
  | setTopology
  | drawInstanced (vertexCount instanceCount startVertex startInstance : Nat)
  deriving DecidableEq, Repr

/-- The command sequence recorded by render_frame (examples/demo.rs lines
97-125): root signature, barrier PRESENT to RENDER_TARGET, the draw commands
against the back buffer, barrier RENDER_TARGET back to PRESENT. -/
def render_frame_cmds : List GpuCmd :=
  [ GpuCmd.setRootSignature,
    GpuCmd.transitionBarrier ResState.presentable ResState.renderTarget,
    GpuCmd.omSetRenderTargets,
    GpuCmd.clearRtv,
    GpuCmd.setTopology,
    GpuCmd.drawInstanced 3 1 0 0,
    GpuCmd.transitionBarrier ResState.renderTarget ResState.presentable ]

/-- Whether a command uses the current back buffer as a render target. -/
def touchesBackBuffer : GpuCmd → Bool
  | GpuCmd.omSetRenderTargets => true
  | GpuCmd.clearRtv => true
  | GpuCmd.drawInstanced _ _ _ _ => true
  | _ => false

/-- Checks a recording against the layout discipline: every transition
barrier leaves from the current layout, and every command that uses the back
buffer runs while the buffer is in the renderTarget layout. -/
def recordedValidly : ResState → List GpuCmd → Bool
  | _, [] => true
  | st, GpuCmd.transitionBarrier b a :: rest =>
    decide (b = st) && recordedValidly a rest
  | st, c :: rest =>
    (!(touchesBackBuffer c) || decide (st = ResState.renderTarget))
      && recordedValidly st rest

/-- Layout of the back buffer after a recording, starting from a given
layout. -/
def finalLayout : ResState → List GpuCmd → ResState
  | st, [] => st
  | _, GpuCmd.transitionBarrier _ a :: rest => finalLayout a rest
  | st, _ :: rest => finalLayout st rest

/-- Frame-level actions of render_frame (examples/demo.rs lines 87-139)
after its event wait. -/
inductive FrameAct
  | record
  | closeList
  | executeLists
  | presentCall
  | signalCall
  deriving DecidableEq, Repr

/-- Order of the frame-level actions in render_frame: record the commands,
close the list, submit it, present, then the fence steps. -/
def render_frame_acts : List FrameAct :=
  [ FrameAct.record, FrameAct.closeList, FrameAct.executeLists,
    FrameAct.presentCall, FrameAct.signalCall ]

/-- Native API calls made by Gpu::new (src/gpu.rs lines 37-132) whose errors
propagate out through the question-mark operator, in source order; the
debug-layer calls run only in debug builds. -/
inductive SetupStep
  | getDebugInterface
  | createFactory
  | enumAdapter
  | createDevice
  | castInfoQueue
  | setBreakOnSeverity
  | registerMessageCallback
  | createCommandQueue
  | createCommandAllocator
  | createCommandList
  | closeCommandList
  | createFence
  | createFenceEvent
  | getAdapterDesc
  | checkInterfaceSupport
  deriving DecidableEq, Repr

/-- Call order of Gpu::new, with the debug-interface call present only when
debug assertions are compiled in. -/
def gpuNewSteps (debug : Bool) : List SetupStep :=
  (if debug then [SetupStep.getDebugInterface] else []) ++
  [ SetupStep.createFactory, SetupStep.enumAdapter, SetupStep.createDevice,
    SetupStep.castInfoQueue, SetupStep.setBreakOnSeverity,
    SetupStep.registerMessageCallback, SetupStep.createCommandQueue,
    SetupStep.createCommandAllocator, SetupStep.createCommandList,
    SetupStep.closeCommandList, SetupStep.createFence,
    SetupStep.createFenceEvent, SetupStep.getAdapterDesc,
    SetupStep.checkInterfaceSupport ]

/-- Native API calls made by create_new_swapchain (src/swapchain.rs lines
144-190) whose results the source unwraps, in source order; the last two are
the GetBuffer calls inside create_rtvs. -/
inductive SwapchainStep
  | castFactory
  | createSwapChainForHwnd
  | castSwapchain
  | setMaximumFrameLatency
  | createDescriptorHeap
  | getBufferZero
  | getBufferOne
  deriving DecidableEq, Repr

/-- Call order of create_new_swapchain. -/
def swapchainSteps : List SwapchainStep :=
  [ SwapchainStep.castFactory, SwapchainStep.createSwapChainForHwnd,
    SwapchainStep.castSwapchain, SwapchainStep.setMaximumFrameLatency,
    SwapchainStep.createDescriptorHeap, SwapchainStep.getBufferZero,
    SwapchainStep.getBufferOne ]

/-- Runs fallible native calls in order, exactly as the question-mark
operator and unwrap do: execution stops at the first failing call. Returns
the calls attempted and the final outcome. -/
def runCalls {σ : Type} (oracle : σ → Except String Unit) :
    List σ → List σ × Except String Unit
  | [] => ([], Except.ok ())
  | s :: rest =>
    match oracle s with
    | Except.error e => ([s], Except.error e)
    | Except.ok _ =>
      let t := runCalls oracle rest
      (s :: t.1, t.2)

/-- Outcome of a setup path: either it completes, or the process aborts with
a diagnostic message. -/
inductive BuildOutcome
  | built
  | aborted (diagnostic : String)
  deriving DecidableEq, Repr

/-- Gpu::new over an oracle assigning each native call its result. -/
def gpuNew (debug : Bool) (oracle : SetupStep → Except String Unit) :
    List SetupStep × Except String Unit :=
  runCalls oracle (gpuNewSteps debug)

/-- BevyDirectXPlugin::build (src/lib.rs lines 18-31): the expect call on
Gpu::new() turns any setup error into a process abort that carries the
diagnostic message; on success the plugin is built. -/
def pluginBuild (debug : Bool) (oracle : SetupStep → Except String Unit) :
    BuildOutcome :=
  match (gpuNew debug oracle).2 with
  | Except.error e =>
    BuildOutcome.aborted ("BevyDirectX: Failed to initialize renderer: " ++ e)
  | Except.ok _ => BuildOutcome.built

/-- create_new_swapchain over an oracle: the attempted calls and the
outcome of the unwrap chain. -/
def createSwapchainRun (oracle : SwapchainStep → Except String Unit) :
    List SwapchainStep × Except String Unit :=
  runCalls oracle swapchainSteps

/-- Outcome of create_new_swapchain: every native call is unwrapped, so the
first failure aborts the process with that error as diagnostic. -/
def createSwapchainOutcome (oracle : SwapchainStep → Except String Unit) :
    BuildOutcome :=
  match (createSwapchainRun oracle).2 with
  | Except.error e => BuildOutcome.aborted e
  | Except.ok _ => BuildOutcome.built

/-- Oracle under which D3D12CreateDevice fails and every other call
succeeds. -/
def failDeviceOracle : SetupStep → Except String Unit
  | SetupStep.createDevice => Except.error "device creation failed"
  | _ => Except.ok ()

/-- Oracle under which CreateSwapChainForHwnd fails and every other call
succeeds. -/
def failSwapchainOracle : SwapchainStep → Except String Unit
  | SwapchainStep.createSwapChainForHwnd => Except.error "swapchain creation failed"
  | _ => Except.ok ()

/-- State of the composed program (plugin plus demo) relevant to the resize
path, after startup and window creation: the Gpu fence (which the demo never
signals), the demo fence, the observed demo fence completed value, and the
counts of command lists submitted to and finished by the device. -/
structure DemoState where
  gpuFence : FenceState
  demoFence : DemoFence
  demoCompleted : Nat
  workSubmitted : Nat
  workCompleted : Nat
  currentDesc : SwapchainDesc
  deriving DecidableEq, Repr

/-- Per-frame environment: the descriptor the window reports this frame and
how far device progress advances this frame. -/
structure FrameInput where
  req : SwapchainDesc
  progress : Nat
  deriving DecidableEq, Repr

/-- Observation of one composed frame: whether the resize body ran past its
no-op check, and the demo fence and work counters at that moment. -/
structure FrameReport where
  resizeExecuted : Bool
  demoSubmittedAtResize : Nat
  demoCompletedAtResize : Nat
  workSubmittedAtResize : Nat
  workCompletedAtResize : Nat
  deriving DecidableEq, Repr

/-- One frame of the composed schedule (src/lib.rs lines 19-30 and
examples/demo.rs line 25): First runs wait_for_ready_frame, which waits on
the latency object and then on the Gpu fence — a fence the demo never
signals, so that wait confirms nothing about the demo workload; Render runs
update_render_target, whose resize_swapchain_if_needed proceeds past its
no-op check exactly when the descriptor changed; then the demo render_frame
waits at most 1000 ms on the demo fence event (a timeout is possible, so no
completion is guaranteed), submits the command list, presents, signals the
queue at the current demo counter, increments the counter and arms the event
at the incremented value. Device progress then advances the finished-work
count and the demo fence completed value, bounded by the values actually
signaled. -/
def demoFrame (inp : FrameInput) (s : DemoState) : DemoState × FrameReport :=
  let wake := max s.gpuFence.completed s.gpuFence.fence_counter
  let g := { s.gpuFence with completed := (wait_for_fence s.gpuFence wake).2 }
  let report : FrameReport :=
    { resizeExecuted := decide ¬ (inp.req = s.currentDesc),
      demoSubmittedAtResize := s.demoFence.fence_counter,
      demoCompletedAtResize := s.demoCompleted,
      workSubmittedAtResize := s.workSubmitted,
      workCompletedAtResize := s.workCompleted }
  let d := demo_signal_step s.demoFence
  let submitted := s.workSubmitted + 1
  let workDone := min (max s.workCompleted inp.progress) submitted
  let demoCompleted := max s.demoCompleted (min inp.progress d.queue_signaled)
  ({ gpuFence := g, demoFence := d, demoCompleted := demoCompleted,
     workSubmitted := submitted, workCompleted := workDone,
     currentDesc := inp.req }, report)

/-- Runs a list of composed frames, collecting one report per frame. -/
def runDemoFrames : List FrameInput → DemoState → DemoState × List FrameReport
  | [], s => (s, [])
  | i :: is, s =>
    let r := demoFrame i s
    let rest := runDemoFrames is r.1
    (rest.1, r.2 :: rest.2)

/-- Composed state right after startup and window creation with the given
descriptor: no work submitted, both fences at zero. -/
def initDemoState (desc : SwapchainDesc) : DemoState :=
  { gpuFence := initFence, demoFence := initDemoFence, demoCompleted := 0,
    workSubmitted := 0, workCompleted := 0, currentDesc := desc }

/-- Descriptor of a 1280 by 720 window as update_render_target builds it
(format R8G8B8A8_UNORM = 28, usage RENDER_TARGET_OUTPUT = 32, two buffers,
FLIP_DISCARD = 4, alpha IGNORE = 3, FRAME_LATENCY_WAITABLE_OBJECT = 64). -/
def descA : SwapchainDesc :=
  { width := 1280, height := 720, format := 28, sampleCount := 1,
    bufferUsage := 32, bufferCount := 2, swapEffect := 4, alphaMode := 3,
    flags := 64 }

/-- The same configuration after the user resizes the window to 1920 by
1080. -/
def descB : SwapchainDesc :=
  { descA with width := 1920, height := 1080 }

/-! Supporting lemmas. -/

/-- The initial Gpu fence state satisfies the armed-event invariant. -/
theorem armedInv_initFence : ArmedInv initFence :=
  Or.inl rfl

/-- Gpu::signal_fence reestablishes the armed-event invariant: it always
arms the completion event at the new fence_counter value. -/
theorem armedInv_signal_fence (s : FenceState) : ArmedInv (signal_fence s) :=
  Or.inr rfl

/-- A frame cycle reestablishes the armed-event invariant, since it ends in
signal_fence and the waits touch neither fence_counter nor the armed
value. -/
theorem armedInv_frame_cycle (w : Nat) (s : FenceState) :
    ArmedInv (frame_cycle w s) :=
  Or.inr rfl

/-- Frame cycles preserve the armed-event invariant. -/
theorem armedInv_run_cycles_of (ws : List Nat) (s : FenceState)
    (h : ArmedInv s) : ArmedInv (run_cycles ws s) := by
  induction ws generalizing s with
  | nil => exact h
  | cons w ws ih => exact ih (frame_cycle w s) (armedInv_frame_cycle w s)

/-- Every state reached from the initial fence state by frame cycles
satisfies the armed-event invariant. -/
theorem armedInv_run_cycles (ws : List Nat) :
    ArmedInv (run_cycles ws initFence) :=
  armedInv_run_cycles_of ws initFence armedInv_initFence

/-- The calls attempted by runCalls form a sublist of the planned call
list. -/
theorem runCalls_sublist {σ : Type} (oracle : σ → Except String Unit)
    (l : List σ) : List.Sublist (runCalls oracle l).1 l := by
  induction l with
  | nil => simp [runCalls]
  | cons s rest ih =>
    simp only [runCalls]
    cases oracle s with
    | error e => exact List.cons_sublist_cons.mpr (List.nil_sublist rest)
    | ok u => exact List.cons_sublist_cons.mpr ih

/-- The planned call list of Gpu::new has no duplicate call. -/
theorem gpuNewSteps_nodup (debug : Bool) : (gpuNewSteps debug).Nodup := by
  cases debug <;> decide

/-- The planned call list of create_new_swapchain has no duplicate call. -/
theorem swapchainSteps_nodup : swapchainSteps.Nodup := by decide

/-! Claim theorems. -/

/-- C1: when Gpu::wait_for_fence returns, the completed value observed is at
least fence_counter, the value last submitted for the frame resources about
to be reused. The hypotheses are the armed-event invariant that signal_fence
maintains, and the event-wait contract of SetEventOnCompletion: the blocked
wait returns only once the fence completed value has reached the armed
value. -/
theorem wait_for_fence_completes_previous_use (s : FenceState) (wake : Nat)
    (hinv : ArmedInv s)
    (hwake : ∀ a : Nat, s.armed = some a → a ≤ wake) :
    s.fence_counter ≤ (wait_for_fence s wake).2 := by
  unfold wait_for_fence
  by_cases h : s.completed < s.fence_counter
  · rw [if_pos h]
    rcases hinv with h0 | harm
    · exact absurd h (by omega)
    · exact hwake s.fence_counter harm
  · rw [if_neg h]
    exact Nat.le_of_not_lt h

/-- Witness for C1: after one signal_fence from the initial state, a wait
that observes completed value 1 returns with completed at least the
submitted value 1. -/
theorem wait_for_fence_completes_previous_use_witness :
    (signal_fence initFence).fence_counter ≤
      (wait_for_fence (signal_fence initFence) 1).2 :=
  wait_for_fence_completes_previous_use (signal_fence initFence) 1
    (Or.inr rfl)
    (by
      intro a ha
      simp only [signal_fence, initFence, Option.some.injEq] at ha
      omega)

/-- C2: every sequence of n frame cycles advances fence_counter by exactly
n, a single cycle advances it by exactly 1, and both Gpu::signal_fence (in
frame_cycle) and the fence steps of the demo render_frame arm the completion
notification at the advanced counter value. -/
theorem submit_and_present_advances_fence (s : FenceState) (d : DemoFence)
    (ws : List Nat) (w : Nat) :
    (run_cycles ws s).fence_counter = s.fence_counter + ws.length
    ∧ (frame_cycle w s).fence_counter = s.fence_counter + 1
    ∧ (frame_cycle w s).armed = some ((frame_cycle w s).fence_counter)
    ∧ (demo_signal_step d).fence_counter = d.fence_counter + 1
    ∧ (demo_signal_step d).armed = some ((demo_signal_step d).fence_counter) := by
  refine ⟨?_, rfl, rfl, rfl, rfl⟩
  induction ws generalizing s with
  | nil => rfl
  | cons w2 ws ih =>
    show (run_cycles ws (frame_cycle w2 s)).fence_counter
      = s.fence_counter + (ws.length + 1)
    rw [ih (frame_cycle w2 s)]
    show s.fence_counter + 1 + ws.length = s.fence_counter + (ws.length + 1)
    omega

/-- C3 failing run: in the composed schedule, frame 1 renders at descA and
submits work the device has not finished; frame 2 reports descB, so the
resize body runs past its no-op check while the demo fence submitted counter
is 1 against a last-observed completed value of 0, with 1 submitted command
list and 0 finished. The only fence waited on before the resize is the Gpu
fence, which this composition never signals. -/
theorem resize_runs_with_outstanding_work :
    (runDemoFrames
        [{ req := descA, progress := 0 }, { req := descB, progress := 0 }]
        (initDemoState descA)).2.get? 1 =
      some { resizeExecuted := true, demoSubmittedAtResize := 1,
             demoCompletedAtResize := 0, workSubmittedAtResize := 1,
             workCompletedAtResize := 0 } := by
  decide

/-- C4 counterexample: it is false that both suspension points pass a
bounded timeout; both call sites pass the INFINITE sentinel to
WaitForSingleObjectEx. -/
theorem suspension_timeouts_not_bounded :
    ¬ (boundedTimeout wait_for_ready_frame_timeout = true
       ∧ boundedTimeout wait_for_fence_timeout = true) := by
  decide

/-- C4 amended: both suspension points — the presentation-ready wait in
wait_for_ready_frame and the fence wait in Gpu::wait_for_fence — pass the
Windows INFINITE sentinel, an unbounded wait with no finite timeout. -/
theorem suspension_timeouts_infinite :
    wait_for_ready_frame_timeout = INFINITE
    ∧ wait_for_fence_timeout = INFINITE :=
  ⟨rfl, rfl⟩

/-- C5: when the requested descriptor equals the one the swapchain reports
through GetDesc1, resize_swapchain_if_needed returns the target completely
unchanged and issues no ResizeBuffers and no view recreation. -/
theorem resize_same_desc_noop (rt : WindowRenderTarget)
    (bufferId : Nat → Nat) (heapStart heapIncrement : Nat) :
    resize_swapchain_if_needed rt rt.desc bufferId heapStart heapIncrement
      = (rt, []) := by
  unfold resize_swapchain_if_needed
  rw [if_pos rfl]

/-- C6: wait_for_ready_frame with no WindowRenderTarget present returns at
once with the gpu fence state unchanged and without blocking on the latency
waitable; the embedded system is total, so no code path faults. -/
theorem wait_for_ready_frame_no_target_noop (gpu : FenceState)
    (fenceWake : Nat) :
    wait_for_ready_frame none gpu fenceWake = (gpu, false) :=
  rfl

/-- C7: the recorded demo frame respects the layout bracket: every command
that uses the back buffer runs in the renderTarget layout entered by the
opening barrier, the final layout is presentable again, at least one
back-buffer command is recorded, and recording precedes submission, which
precedes presentation. -/
theorem record_brackets_back_buffer_use :
    recordedValidly ResState.presentable render_frame_cmds = true
    ∧ finalLayout ResState.presentable render_frame_cmds = ResState.presentable
    ∧ render_frame_cmds.any touchesBackBuffer = true
    ∧ List.indexOf FrameAct.record render_frame_acts <
        List.indexOf FrameAct.executeLists render_frame_acts
    ∧ List.indexOf FrameAct.executeLists render_frame_acts <
        List.indexOf FrameAct.presentCall render_frame_acts := by
  decide

/-- C8: a native failure anywhere in Gpu::new makes the plugin build abort
with the diagnostic message, a native failure anywhere in
create_new_swapchain aborts with its diagnostic, and in both runs every
native call is attempted at most once, so no retry or recovery occurs. -/
theorem setup_failure_is_fatal (debug : Bool)
    (o : SetupStep → Except String Unit)
    (o2 : SwapchainStep → Except String Unit) (e e2 : String)
    (h : (gpuNew debug o).2 = Except.error e)
    (h2 : (createSwapchainRun o2).2 = Except.error e2) :
    pluginBuild debug o
      = BuildOutcome.aborted ("BevyDirectX: Failed to initialize renderer: " ++ e)
    ∧ createSwapchainOutcome o2 = BuildOutcome.aborted e2
    ∧ (gpuNew debug o).1.Nodup
    ∧ (createSwapchainRun o2).1.Nodup := by
  refine ⟨?_, ?_, ?_, ?_⟩
  · unfold pluginBuild
    rw [h]
  · unfold createSwapchainOutcome
    rw [h2]
  · exact List.Nodup.sublist (runCalls_sublist o (gpuNewSteps debug))
      (gpuNewSteps_nodup debug)
  · exact List.Nodup.sublist (runCalls_sublist o2 swapchainSteps)
      swapchainSteps_nodup

/-- Witness for C8: with device creation failing, plugin build aborts with
the renderer diagnostic; with swapchain creation failing, setup aborts with
its diagnostic; both attempted-call traces have no duplicates. -/
theorem setup_failure_is_fatal_witness :
    pluginBuild true failDeviceOracle
      = BuildOutcome.aborted
          ("BevyDirectX: Failed to initialize renderer: " ++ "device creation failed")
    ∧ createSwapchainOutcome failSwapchainOracle
      = BuildOutcome.aborted "swapchain creation failed"
    ∧ (gpuNew true failDeviceOracle).1.Nodup
    ∧ (createSwapchainRun failSwapchainOracle).1.Nodup :=
  setup_failure_is_fatal true failDeviceOracle failSwapchainOracle
    "device creation failed" "swapchain creation failed" rfl rfl

/-- C9: Gpu::wait_for_fence does not block whenever the completed value has
reached fence_counter; in particular with fence_counter still 0, before any
signal_fence call, it never blocks. -/
theorem wait_for_fence_no_block (s : FenceState) (wake : Nat)
    (h : s.fence_counter = 0 ∨ s.fence_counter ≤ s.completed) :
    (wait_for_fence s wake).1 = false := by
  have hn : ¬ s.completed < s.fence_counter := by omega
  unfold wait_for_fence
  rw [if_neg hn]

/-- Witness for C9: in the state Gpu::new leaves behind, with fence_counter
0, the wait does not block. -/
theorem wait_for_fence_no_block_witness :
    (wait_for_fence initFence 0).1 = false :=
  wait_for_fence_no_block initFence 0 (Or.inl rfl)

/-- C10: create_new_swapchain populates both Option arrays; whenever they
are populated on entry, resize_swapchain_if_needed returns them populated
again — the transient clear inside the resize body is always followed by
repopulation before returning — and rtv on the result never observes
none. -/
theorem render_target_arrays_stay_populated (rt : WindowRenderTarget)
    (desc : SwapchainDesc) (bufferId : Nat → Nat)
    (heapStart heapIncrement : Nat) (i : Fin 2)
    (h : rt.textures.isSome = true ∧ rt.rtvs.isSome = true) :
    ((resize_swapchain_if_needed rt desc bufferId heapStart heapIncrement).1.textures.isSome = true
      ∧ (resize_swapchain_if_needed rt desc bufferId heapStart heapIncrement).1.rtvs.isSome = true
      ∧ ((resize_swapchain_if_needed rt desc bufferId heapStart heapIncrement).1.rtv i).isSome = true)
    ∧ (create_new_swapchain desc bufferId heapStart heapIncrement).textures.isSome = true
    ∧ (create_new_swapchain desc bufferId heapStart heapIncrement).rtvs.isSome = true := by
  refine ⟨?_, rfl, rfl⟩
  unfold resize_swapchain_if_needed
  by_cases hd : desc = rt.desc
  · rw [if_pos hd]
    obtain ⟨t, ht⟩ := Option.isSome_iff_exists.mp h.1
    obtain ⟨r, hr⟩ := Option.isSome_iff_exists.mp h.2
    refine ⟨h.1, h.2, ?_⟩
    simp [WindowRenderTarget.rtv, ht, hr]
  · rw [if_neg hd]
    simp [WindowRenderTarget.rtv, create_rtvs]

/-- Witness for C10: a freshly created target at descA, resized to descB,
keeps both arrays populated and rtv at back-buffer index 0 observes a
value. -/
theorem render_target_arrays_stay_populated_witness :
    ((resize_swapchain_if_needed (create_new_swapchain descA (fun n => n) 100 32) descB (fun n => n) 100 32).1.textures.isSome = true
      ∧ (resize_swapchain_if_needed (create_new_swapchain descA (fun n => n) 100 32) descB (fun n => n) 100 32).1.rtvs.isSome = true
      ∧ ((resize_swapchain_if_needed (create_new_swapchain descA (fun n => n) 100 32) descB (fun n => n) 100 32).1.rtv 0).isSome = true)
    ∧ (create_new_swapchain descB (fun n => n) 100 32).textures.isSome = true
    ∧ (create_new_swapchain descB (fun n => n) 100 32).rtvs.isSome = true :=
  render_target_arrays_stay_populated
    (create_new_swapchain descA (fun n => n) 100 32) descB (fun n => n)
    100 32 0 ⟨rfl, rfl⟩

end BevyDirectX
